import Mathlib

/-!
Shallow embedding of the tenant connection-routing and authentication-context
core of the `rust_multi_tenant` repository.

Sources embedded:
- `src/multi_tenancy/tenant_manager.rs` (`TenantConnectionManager`:
  `get_tenant_connection`, `validate_tenant`, `build_tenant_db_url`,
  `create_tenant_database`);
- `src/middlewares/auth.rs` (`Claims`, `auth_middleware`,
  `validate_jwt_token`, `create_jwt_token`);
- `src/multi_tenancy/master.rs` (`MasterService.authenticate_user`);
- `src/types/...` (`DatabaseConfig`, `AppState`, `TenantContext`,
  `LoginRequest`, `LoginResponse`, `UserResponse`).

External effects (the Postgres stores, `Database::connect`, argon2 password
verification, sea-orm migrations) are modelled by an explicit environment of
oracles; the JWT library is modelled abstractly: a token carries its claims
and an opaque MAC tag determined by the signing secret, so verification
succeeds exactly when the verifying secret equals the signing secret.
Lock acquisitions and I/O steps are recorded in an explicit event trace so
that claims about locking and about "no connection is attempted" can be
stated.  SeaORM `Statement` values are embedded as SQL text plus the list of
positionally bound values.
-/

deriving instance DecidableEq for Except

namespace MultiTenant

/-- `types/config/config_types.rs`: `DatabaseConfig`. -/
structure DatabaseConfig where
  master_url : String
  username : String
  password : String
  host : String
  port : Nat
deriving DecidableEq, Repr

/-- A sea-orm `DatabaseConnection`, identified by the URL it was opened
against (`Database::connect(url)`). -/
structure DatabaseConnection where
  url : String
deriving DecidableEq, Repr

/-- A sea-orm `Statement`: SQL text plus positionally bound values
(`Statement::from_sql_and_values`; `Statement::from_string` has no values). -/
structure SqlStatement where
  sql : String
  values : List String
deriving DecidableEq, Repr

/-- A row of the control-plane `tenants` table (the columns
`validate_tenant` selects). -/
structure TenantRow where
  id : String
  status : String
deriving DecidableEq, Repr

/-- Error outcome of `CREATE DATABASE` on the admin connection. -/
inductive CreateDbError where
  | alreadyExists
  | otherError
deriving DecidableEq, Repr

/-- Environment of external effects for the tenant manager: the state of the
control-plane `tenants` table, whether the master store is reachable, which
`Database::connect` URLs succeed, and the outcomes of the admin connection,
of `CREATE DATABASE`, and of running the tenant migrations. -/
structure Env where
  tenants : List TenantRow
  directoryUp : Bool
  connectOk : String → Bool
  adminConnectOk : Bool
  createDb : String → Except CreateDbError Unit
  migrateOk : String → Bool

/-- The distinct error provenances of `get_tenant_connection`
(`anyhow::Error` in the source, one value per distinct failure site):
the dedicated "Tenant not found or inactive" error raised by
`validate_tenant`, a `DbErr` from the master-store lookup itself, and a
failure of `Database::connect` on the tenant URL. -/
inductive RoutingError where
  | tenantInactiveOrUnknown
  | directoryUnavailable
  | connectFailed
deriving DecidableEq, Repr

/-- Observable steps taken by `get_tenant_connection`: which lock it takes
on the shared cache and which I/O it performs. -/
inductive Event where
  | acquireRead
  | acquireWrite
  | queryDirectory
  | connectTenant (url : String)
  | clearCache
  | insertEntry (tenant_id : String)
deriving DecidableEq, Repr

/-- `tenant_manager.rs`: the `TenantConnectionManager` state.  The Rust
`Arc<RwLock<HashMap<String, DatabaseConnection>>>` is embedded as an
association list with distinct keys (lock acquisitions are recorded in the
event trace instead). -/
structure TenantConnectionManager where
  connections : List (String × DatabaseConnection)
  master_connection : DatabaseConnection
  config : DatabaseConfig
  max_connections_per_tenant : Nat
deriving DecidableEq, Repr

/-- `TenantConnectionManager::new`: empty cache, master connection opened
from `config.master_url`, bound hard-coded to 10. -/
def TenantConnectionManager.new (config : DatabaseConfig) : TenantConnectionManager :=
  { connections := []
    master_connection := { url := config.master_url }
    config := config
    max_connections_per_tenant := 10 }

/-- The `Statement` issued by `validate_tenant`: constant SQL text with the
tenant id bound positionally as `$1`. -/
def validateTenantStmt (tenant_id : String) : SqlStatement :=
  { sql := "SELECT id, status FROM tenants WHERE id = $1 AND status = \x27active\x27"
    values := [tenant_id] }

/-- `tenant_manager.rs` `validate_tenant`: query the master store for a row
with this id and `status = \x27active\x27`; `Ok(())` if one exists, the dedicated
"Tenant not found or inactive" error otherwise; the query itself failing
(master store unreachable) propagates as a distinct error via `?`. -/
def validate_tenant (env : Env) (tenant_id : String) : Except RoutingError Unit :=
  if env.directoryUp then
    match env.tenants.find? (fun t => t.id == tenant_id && t.status == "active") with
    | some _ => .ok ()
    | none => .error .tenantInactiveOrUnknown
  else
    .error .directoryUnavailable

/-- `tenant_manager.rs` `build_tenant_db_url`: direct interpolation of the
config fields and the raw tenant id into the URL string. -/
def build_tenant_db_url (config : DatabaseConfig) (tenant_id : String) : String :=
  "postgresql://" ++ config.username ++ ":" ++ config.password ++ "@" ++
    config.host ++ ":" ++ toString config.port ++ "/tenant_" ++ tenant_id

/-- Result of one `get_tenant_connection` call: the returned
`Result<DatabaseConnection>`, the manager state after the call, and the
trace of lock/I-O events the call performed. -/
structure GetResult where
  result : Except RoutingError DatabaseConnection
  manager : TenantConnectionManager
  trace : List Event
deriving DecidableEq, Repr

/-- `tenant_manager.rs` `get_tenant_connection`.  The source takes the
`write()` lock first, then: cache hit returns a clone; on a miss it calls
`validate_tenant`, opens `Database::connect(build_tenant_db_url ...)`,
clears the whole map when `connections.len() >= max_connections_per_tenant`,
and inserts the new entry.  Every `?`-propagated error leaves the map
untouched. -/
def get_tenant_connection (m : TenantConnectionManager) (env : Env)
    (tenant_id : String) : GetResult :=
  match m.connections.find? (fun p => p.1 == tenant_id) with
  | some p =>
    { result := .ok p.2, manager := m, trace := [.acquireWrite] }
  | none =>
    match validate_tenant env tenant_id with
    | .error e =>
      { result := .error e, manager := m, trace := [.acquireWrite, .queryDirectory] }
    | .ok _ =>
      let db_url := build_tenant_db_url m.config tenant_id
      if env.connectOk db_url then
        let connection : DatabaseConnection := { url := db_url }
        if m.max_connections_per_tenant ≤ m.connections.length then
          { result := .ok connection
            manager := { m with connections := [(tenant_id, connection)] }
            trace := [.acquireWrite, .queryDirectory, .connectTenant db_url,
                      .clearCache, .insertEntry tenant_id] }
        else
          { result := .ok connection
            manager := { m with connections := (tenant_id, connection) :: m.connections }
            trace := [.acquireWrite, .queryDirectory, .connectTenant db_url,
                      .insertEntry tenant_id] }
      else
        { result := .error .connectFailed, manager := m
          trace := [.acquireWrite, .queryDirectory, .connectTenant db_url] }

/-- `get_master_connection`: a clone of the always-open master handle. -/
def get_master_connection (m : TenantConnectionManager) : DatabaseConnection :=
  m.master_connection

/-- The `Statement` issued by `create_tenant_database`:
`Statement::from_string(format!("CREATE DATABASE {}", db_name))` with
`db_name = format!("tenant_{}", tenant_id)` — raw interpolation, no bound
values. -/
def createDatabaseStmt (tenant_id : String) : SqlStatement :=
  { sql := "CREATE DATABASE tenant_" ++ tenant_id, values := [] }

/-- Errors of `create_tenant_database`, one per distinct failure site. -/
inductive ProvisionError where
  | adminConnectFailed
  | storeCreateFailed (e : CreateDbError)
  | schemaApplyFailed
deriving DecidableEq, Repr

/-- Observable steps of `create_tenant_database`. -/
inductive PEvent where
  | connectAdmin
  | execCreate (sql : String)
  | runMigrations (url : String)
deriving DecidableEq, Repr

/-- Whether a provisioning event is the migration (schema-apply) step. -/
def PEvent.isMigrateStep : PEvent → Bool
  | .runMigrations _ => true
  | _ => false

/-- Result of one `create_tenant_database` call. -/
structure ProvisionResult where
  result : Except ProvisionError Unit
  trace : List PEvent
deriving DecidableEq, Repr

/-- `tenant_manager.rs` `create_tenant_database`: connect to the admin
database, execute `CREATE DATABASE tenant_<id>` (any execute error,
"already exists" included, propagates via `?`), then connect to the new
store and run the tenant migrations (`run_tenant_migrations`). -/
def create_tenant_database (m : TenantConnectionManager) (env : Env)
    (tenant_id : String) : ProvisionResult :=
  if env.adminConnectOk then
    let stmt := createDatabaseStmt tenant_id
    match env.createDb stmt.sql with
    | .error e =>
      { result := .error (.storeCreateFailed e)
        trace := [.connectAdmin, .execCreate stmt.sql] }
    | .ok _ =>
      let tenant_db_url := build_tenant_db_url m.config tenant_id
      if env.migrateOk tenant_db_url then
        { result := .ok ()
          trace := [.connectAdmin, .execCreate stmt.sql, .runMigrations tenant_db_url] }
      else
        { result := .error .schemaApplyFailed
          trace := [.connectAdmin, .execCreate stmt.sql, .runMigrations tenant_db_url] }
  else
    { result := .error .adminConnectFailed, trace := [] }

/-- `middlewares/auth.rs`: the JWT `Claims` payload.  Timestamps are seconds
(`usize` in the source, `Nat` here). -/
structure Claims where
  sub : String
  tenant_id : String
  exp : Nat
  iat : Nat
  permissions : List String
deriving DecidableEq, Repr

/-- A signed token.  The HMAC-SHA256 tag of the `jsonwebtoken` library is
modelled abstractly by recording the signing secret: verification against
`secret` succeeds exactly when the tag was produced with that same
`secret`, which is the defining property of the MAC this core relies on. -/
structure Token where
  claims : Claims
  sig : String
deriving DecidableEq, Repr

/-- Verification failures of the JWT layer. -/
inductive JwtError where
  | invalidSignature
  | expired
deriving DecidableEq, Repr

/-- `auth.rs` `create_jwt_token`: `iat = now`,
`exp = now + expiration`, claims copied from the arguments, signed with
`secret`. -/
def create_jwt_token (user_id tenant_id : String) (permissions : List String)
    (secret : String) (expiration : Nat) (now : Nat) : Token :=
  { claims :=
      { sub := user_id, tenant_id := tenant_id, exp := now + expiration
        iat := now, permissions := permissions }
    sig := secret }

/-- `auth.rs` `validate_jwt_token`: `decode` checks the signature against
`secret` and that the token is not expired, returning the claims. -/
def validate_jwt_token (token : Token) (secret : String) (now : Nat) :
    Except JwtError Claims :=
  if token.sig == secret then
    if now < token.claims.exp then .ok token.claims
    else .error .expired
  else .error .invalidSignature

/-- `types/shared/shared_types.rs`: `TenantContext`. -/
structure TenantContext where
  tenant_id : String
  user_id : String
  permissions : List String
deriving DecidableEq, Repr

/-- `types/shared/shared_types.rs`: `AppState`. -/
structure AppState where
  tenant_manager : TenantConnectionManager
  jwt_secret : String
deriving DecidableEq, Repr

/-- An inbound request, reduced to its bearer token
(`extract_token_from_request` returns `Some` exactly when a well-formed
`Authorization: Bearer ...` header is present). -/
structure Request where
  bearer : Option Token
deriving DecidableEq, Repr

/-- Successful outcome of `auth_middleware`: the `TenantContext` and
connection attached to the request, plus the manager state after
`get_tenant_connection`. -/
structure AuthOk where
  context : TenantContext
  connection : DatabaseConnection
  manager : TenantConnectionManager
deriving DecidableEq, Repr

/-- `auth.rs` `auth_middleware`: missing token → 401; any
`validate_jwt_token` error → 401; any `get_tenant_connection` error →
`StatusCode::INTERNAL_SERVER_ERROR` (500); on success attach the
`TenantContext` built from the claims and the resolved connection. -/
def auth_middleware (state : AppState) (env : Env) (now : Nat)
    (request : Request) : Except Nat AuthOk :=
  match request.bearer with
  | none => .error 401
  | some token =>
    match validate_jwt_token token state.jwt_secret now with
    | .error _ => .error 401
    | .ok claims =>
      let r := get_tenant_connection state.tenant_manager env claims.tenant_id
      match r.result with
      | .error _ => .error 500
      | .ok conn =>
        .ok { context :=
                { tenant_id := claims.tenant_id, user_id := claims.sub
                  permissions := claims.permissions }
              connection := conn, manager := r.manager }

/-- `auth.rs` `require_permission`: pure membership check, 403 on failure. -/
def require_permission (tenant_context : TenantContext)
    (required_permission : String) : Except Nat Unit :=
  if tenant_context.permissions.contains required_permission then .ok ()
  else .error 403

/-- A row of the control-plane `users` table (the columns
`authenticate_user` selects). -/
structure UserRow where
  id : String
  tenant_id : String
  email : String
  password_hash : String
  permissions : List String
deriving DecidableEq, Repr

/-- Environment of the `MasterService`: the `users` table, reachability of
the master store, and the argon2 `verify_password` oracle
(password, stored hash ↦ match). -/
structure MasterEnv where
  users : List UserRow
  masterDbUp : Bool
  password_matches : String → String → Bool

/-- `sea_orm::DbErr`, reduced to the cases `authenticate_user` can hit. -/
inductive DbError where
  | queryFailed
deriving DecidableEq, Repr

/-- `types/shared/shared_types.rs`: `LoginRequest`. -/
structure LoginRequest where
  email : String
  password : String
deriving DecidableEq, Repr

/-- `types/shared/shared_types.rs`: `UserResponse` (timestamps as seconds). -/
structure UserResponse where
  id : String
  email : String
  first_name : String
  last_name : String
  created_at : Nat
  updated_at : Nat
deriving DecidableEq, Repr

/-- `types/shared/shared_types.rs`: `LoginResponse`; the encoded JWT string
is carried as the structured `Token`. -/
structure LoginResponse where
  token : Token
  user : UserResponse
deriving DecidableEq, Repr

/-- `master.rs` `MasterService::authenticate_user`: look up the user by
`(email, tenant_id)` (positional binding), verify the password via argon2,
and on success issue a token with `create_jwt_token(user_id, tenant_id,
permissions, "your-secret-key", 3600)` — the secret is the hard-coded
literal, the TTL the hard-coded 3600; no match or bad password yields
`Ok(None)`. -/
def authenticate_user (menv : MasterEnv) (login_data : LoginRequest)
    (tenant_id : String) (now : Nat) : Except DbError (Option LoginResponse) :=
  if menv.masterDbUp then
    match menv.users.find? (fun u => u.email == login_data.email && u.tenant_id == tenant_id) with
    | none => .ok none
    | some row =>
      if menv.password_matches login_data.password row.password_hash then
        let token := create_jwt_token row.id tenant_id row.permissions
          "your-secret-key" 3600 now
        .ok (some
          { token := token
            user :=
              { id := row.id, email := row.email, first_name := ""
                last_name := "", created_at := now, updated_at := now } })
      else
        .ok none
  else
    .error .queryFailed

/-- Whether a `get_tenant_connection` event is an attempt to open a tenant
connection. -/
def Event.isConnectAttempt : Event → Bool
  | .connectTenant _ => true
  | _ => false

/-! Concrete fixtures for the concrete evaluations below. -/

/-- A concrete database config. -/
def cfgA : DatabaseConfig :=
  { master_url := "postgresql://u:p@h:5432/master", username := "u"
    password := "p", host := "h", port := 5432 }

/-- A freshly constructed manager (empty cache, bound 10). -/
def mA : TenantConnectionManager := TenantConnectionManager.new cfgA

/-- The manager with a cached connection for tenant `acme`. -/
def mAcme : TenantConnectionManager :=
  { mA with connections := [("acme", { url := "cached" })] }

/-- Control plane holding a single suspended tenant `acme`; all I/O
succeeds. -/
def envSuspended : Env :=
  { tenants := [{ id := "acme", status := "suspended" }], directoryUp := true
    connectOk := fun _ => true, adminConnectOk := true
    createDb := fun _ => .ok (), migrateOk := fun _ => true }

/-- Control plane holding no tenants at all; all I/O succeeds. -/
def envEmpty : Env :=
  { tenants := [], directoryUp := true
    connectOk := fun _ => true, adminConnectOk := true
    createDb := fun _ => .ok (), migrateOk := fun _ => true }

/-- Control plane holding a single active tenant `acme`; all I/O
succeeds. -/
def envActive : Env :=
  { tenants := [{ id := "acme", status := "active" }], directoryUp := true
    connectOk := fun _ => true, adminConnectOk := true
    createDb := fun _ => .ok (), migrateOk := fun _ => true }

/-- Environment whose `CREATE DATABASE` fails because the store already
exists, while everything else succeeds. -/
def envExists : Env :=
  { tenants := [], directoryUp := true
    connectOk := fun _ => true, adminConnectOk := true
    createDb := fun _ => .error .alreadyExists, migrateOk := fun _ => true }

/-! Theorems. -/

/-- Claim C2, counterexample: on a cache hit the source `get_tenant_connection`
takes the exclusive write lock (`self.connections.write().await` before the
lookup), not a read lock — the hit trace is exactly `[acquireWrite]` and
contains no `acquireRead`. -/
theorem hit_path_takes_write_lock_counterexample :
    (get_tenant_connection mAcme envActive "acme").result = .ok { url := "cached" } ∧
    (get_tenant_connection mAcme envActive "acme").trace = [.acquireWrite] ∧
    Event.acquireWrite ∈ (get_tenant_connection mAcme envActive "acme").trace ∧
    Event.acquireRead ∉ (get_tenant_connection mAcme envActive "acme").trace := by
  decide

/-- Claim C2, amended: every `get_tenant_connection` call — cache hits
included — begins by acquiring the exclusive write lock, and no call ever
takes a read lock; concurrent cache hits therefore serialize instead of
proceeding in parallel. -/
theorem get_tenant_connection_always_write_lock (m : TenantConnectionManager)
    (env : Env) (tenant_id : String) :
    (get_tenant_connection m env tenant_id).trace.head? = some .acquireWrite ∧
    Event.acquireRead ∉ (get_tenant_connection m env tenant_id).trace := by
  cases hfind : m.connections.find? (fun p => p.1 == tenant_id) with
  | some p => simp [get_tenant_connection, hfind]
  | none =>
    cases hval : validate_tenant env tenant_id with
    | error e => simp [get_tenant_connection, hfind, hval]
    | ok u =>
      by_cases hc : env.connectOk (build_tenant_db_url m.config tenant_id) = true
      · by_cases hcap : m.max_connections_per_tenant ≤ m.connections.length
        · simp [get_tenant_connection, hfind, hval, hc, hcap]
        · simp [get_tenant_connection, hfind, hval, hc, hcap]
      · simp [get_tenant_connection, hfind, hval, hc]

/-- Claim C3: if the cache respects the capacity bound before a call (and
the bound is positive, as the hard-coded 10 is), it still respects it after
the call: a miss-fill at capacity clears the map before inserting, so at
most the bound of entries remain. -/
theorem get_tenant_connection_capacity_bound (m : TenantConnectionManager)
    (env : Env) (tenant_id : String)
    (hmax : 0 < m.max_connections_per_tenant)
    (hlen : m.connections.length ≤ m.max_connections_per_tenant) :
    (get_tenant_connection m env tenant_id).manager.connections.length ≤
      m.max_connections_per_tenant := by
  cases hfind : m.connections.find? (fun p => p.1 == tenant_id) with
  | some p => simpa [get_tenant_connection, hfind] using hlen
  | none =>
    cases hval : validate_tenant env tenant_id with
    | error e => simpa [get_tenant_connection, hfind, hval] using hlen
    | ok u =>
      by_cases hc : env.connectOk (build_tenant_db_url m.config tenant_id) = true
      · by_cases hcap : m.max_connections_per_tenant ≤ m.connections.length
        · simpa [get_tenant_connection, hfind, hval, hc, hcap] using hmax
        · simp [get_tenant_connection, hfind, hval, hc, hcap]
          omega
      · simpa [get_tenant_connection, hfind, hval, hc] using hlen

/-- Claim C3, witness: a concrete call on a bound-respecting cache leaves a
bound-respecting cache. -/
theorem get_tenant_connection_capacity_bound_witness :
    (get_tenant_connection mA envActive "acme").manager.connections.length ≤
      mA.max_connections_per_tenant :=
  get_tenant_connection_capacity_bound mA envActive "acme" (by decide) (by decide)

/-- Claim C4: for a tenant with no cached entry, when the directory is
reachable and holds no active row for the id (unknown id, or a row whose
status is not `active`, e.g. suspended), `get_tenant_connection` fails with
the tenant-inactive-or-unknown error and never attempts to open a
connection. -/
theorem get_tenant_connection_inactive_rejected (m : TenantConnectionManager)
    (env : Env) (tenant_id : String)
    (hmiss : m.connections.find? (fun p => p.1 == tenant_id) = none)
    (hdir : env.directoryUp = true)
    (hbad : ∀ r ∈ env.tenants, r.id = tenant_id → r.status ≠ "active") :
    (get_tenant_connection m env tenant_id).result = .error .tenantInactiveOrUnknown ∧
    ((get_tenant_connection m env tenant_id).trace.all
      fun ev => ! ev.isConnectAttempt) = true := by
  have hnone : env.tenants.find? (fun t => t.id == tenant_id && t.status == "active") = none := by
    apply List.find?_eq_none.mpr
    intro t ht
    simp only [Bool.and_eq_true, beq_iff_eq, not_and]
    intro h1 h2
    exact hbad t ht h1 h2
  have hval : validate_tenant env tenant_id = .error .tenantInactiveOrUnknown := by
    simp [validate_tenant, hdir, hnone]
  simp [get_tenant_connection, hmiss, hval, Event.isConnectAttempt]

/-- Claim C4, witness: the suspended tenant `acme`, absent from the cache,
is rejected without a connection attempt. -/
theorem get_tenant_connection_inactive_rejected_witness :
    (get_tenant_connection mA envSuspended "acme").result
        = .error .tenantInactiveOrUnknown ∧
    ((get_tenant_connection mA envSuspended "acme").trace.all
      fun ev => ! ev.isConnectAttempt) = true :=
  get_tenant_connection_inactive_rejected mA envSuspended "acme"
    (by decide) (by decide) (by decide)

/-- Claim C5, counterexample: for an unknown tenant id (directory reachable,
no such row) the source `validate_tenant` returns the error "Tenant not
found or inactive" — an `Err`, not the value `false`; its `Result<()>`
signature has no boolean success value at all. -/
theorem validate_tenant_not_found_is_error_counterexample :
    validate_tenant envEmpty "ghost" = .error .tenantInactiveOrUnknown ∧
    validate_tenant envEmpty "ghost" ≠ .ok () := by
  decide

/-- Claim C5, amended: `validate_tenant` signals "tenant does not exist or
is inactive" with the dedicated error `tenantInactiveOrUnknown` and a
master-store transport failure with the distinct error
`directoryUnavailable`, so the two outcomes remain distinguishable — but
both are errors; no `false` value is ever returned. -/
theorem validate_tenant_distinguishes_outcomes (env₁ env₂ : Env)
    (tenant_id : String)
    (hdir : env₁.directoryUp = true)
    (hbad : ∀ r ∈ env₁.tenants, r.id = tenant_id → r.status ≠ "active")
    (hdown : env₂.directoryUp = false) :
    validate_tenant env₁ tenant_id = .error .tenantInactiveOrUnknown ∧
    validate_tenant env₂ tenant_id = .error .directoryUnavailable ∧
    validate_tenant env₁ tenant_id ≠ validate_tenant env₂ tenant_id := by
  have hnone : env₁.tenants.find? (fun t => t.id == tenant_id && t.status == "active") = none := by
    apply List.find?_eq_none.mpr
    intro t ht
    simp only [Bool.and_eq_true, beq_iff_eq, not_and]
    intro h1 h2
    exact hbad t ht h1 h2
  refine ⟨by simp [validate_tenant, hdir, hnone], by simp [validate_tenant, hdown], ?_⟩
  simp [validate_tenant, hdir, hdown, hnone]

/-- Claim C5 (amended), witness: concrete unknown-tenant and store-down
environments produce the two distinct errors. -/
theorem validate_tenant_distinguishes_outcomes_witness :
    validate_tenant envEmpty "ghost" = .error .tenantInactiveOrUnknown ∧
    validate_tenant { envEmpty with directoryUp := false } "ghost"
        = .error .directoryUnavailable ∧
    validate_tenant envEmpty "ghost"
      ≠ validate_tenant { envEmpty with directoryUp := false } "ghost" :=
  validate_tenant_distinguishes_outcomes envEmpty
    { envEmpty with directoryUp := false } "ghost" (by decide) (by decide) rfl

/-- Claim C9: whenever `get_tenant_connection` returns an error — tenant
validation failure, directory failure, or connection-open failure — the
manager (in particular its cache map) is exactly what it was before the
call: nothing is inserted, removed, or cleared on any error path. -/
theorem get_tenant_connection_error_leaves_cache (m : TenantConnectionManager)
    (env : Env) (tenant_id : String) (e : RoutingError)
    (herr : (get_tenant_connection m env tenant_id).result = .error e) :
    (get_tenant_connection m env tenant_id).manager = m := by
  cases hfind : m.connections.find? (fun p => p.1 == tenant_id) with
  | some p => simp [get_tenant_connection, hfind] at herr
  | none =>
    cases hval : validate_tenant env tenant_id with
    | error e2 => simp [get_tenant_connection, hfind, hval]
    | ok u =>
      by_cases hc : env.connectOk (build_tenant_db_url m.config tenant_id) = true
      · by_cases hcap : m.max_connections_per_tenant ≤ m.connections.length
        · simp [get_tenant_connection, hfind, hval, hc, hcap] at herr
        · simp [get_tenant_connection, hfind, hval, hc, hcap] at herr
      · simp [get_tenant_connection, hfind, hval, hc]

/-- Claim C9, witness: a failing call for the unknown tenant `ghost` leaves
the manager untouched. -/
theorem get_tenant_connection_error_leaves_cache_witness :
    (get_tenant_connection mAcme envEmpty "ghost").manager = mAcme :=
  get_tenant_connection_error_leaves_cache mAcme envEmpty "ghost"
    .tenantInactiveOrUnknown (by decide)

/-- A tenant id containing a semicolon and spaces — characters outside any
reasonable identifier allow-list. -/
def badId : String := "x; DROP DATABASE postgres"

/-- A valid token for the unknown tenant `ghost`, signed with secret `s`
at time 0 with TTL 100. -/
def tokenGhost : Token := create_jwt_token "u1" "ghost" ["users:read"] "s" 100 0

/-- App state whose configured secret matches `tokenGhost`. -/
def stateGhost : AppState := { tenant_manager := mA, jwt_secret := "s" }

/-- The request carrying `tokenGhost`. -/
def reqGhost : Request := { bearer := some tokenGhost }

/-- Master store with one user for tenant `t1`; the password oracle always
matches. -/
def menvA : MasterEnv :=
  { users := [{ id := "u1", tenant_id := "t1", email := "e@x", password_hash := "h"
                permissions := ["users:read"] }]
    masterDbUp := true, password_matches := fun _ _ => true }

/-- The login request matching `menvA`. -/
def loginA : LoginRequest := { email := "e@x", password := "pw" }

/-- The `LoginResponse` that `authenticate_user menvA loginA "t1" 0`
produces. -/
def respA : LoginResponse :=
  { token := { claims := { sub := "u1", tenant_id := "t1", exp := 3600, iat := 0
                           permissions := ["users:read"] }
               sig := "your-secret-key" }
    user := { id := "u1", email := "e@x", first_name := "", last_name := ""
              created_at := 0, updated_at := 0 } }

/-- Claim C1, counterexample: a request whose token verifies but whose
tenant is unknown is rejected by `auth_middleware` with 500, not 401 — the
single `map_err(|_| StatusCode::INTERNAL_SERVER_ERROR)` maps the
tenant-inactive-or-unknown routing failure to 500. -/
theorem auth_middleware_unknown_tenant_500_counterexample :
    (get_tenant_connection mA envEmpty "ghost").result
        = .error .tenantInactiveOrUnknown ∧
    validate_jwt_token tokenGhost stateGhost.jwt_secret 10 = .ok tokenGhost.claims ∧
    auth_middleware stateGhost envEmpty 10 reqGhost = .error 500 ∧
    auth_middleware stateGhost envEmpty 10 reqGhost ≠ .error 401 := by
  decide

/-- Claim C1, amended: `auth_middleware` maps every `get_tenant_connection`
failure — tenant unknown/inactive, directory lookup failure, and connection
failure alike — to HTTP 500; only a missing or unverifiable token yields
401. -/
theorem auth_middleware_all_routing_errors_500 (state : AppState) (env : Env)
    (now : Nat) (request : Request) (token : Token) (claims : Claims)
    (e : RoutingError)
    (hb : request.bearer = some token)
    (hv : validate_jwt_token token state.jwt_secret now = .ok claims)
    (hg : (get_tenant_connection state.tenant_manager env claims.tenant_id).result
            = .error e) :
    auth_middleware state env now request = .error 500 := by
  simp [auth_middleware, hb, hv, hg]

/-- Claim C1 (amended), witness: the unknown-tenant request is rejected with
500. -/
theorem auth_middleware_all_routing_errors_500_witness :
    auth_middleware stateGhost envEmpty 10 reqGhost = .error 500 :=
  auth_middleware_all_routing_errors_500 stateGhost envEmpty 10 reqGhost
    tokenGhost tokenGhost.claims .tenantInactiveOrUnknown rfl (by decide) (by decide)

/-- Claim C6, counterexample: for a tenant id containing a semicolon and
spaces, `create_tenant_database` succeeds (no rejection of any kind) and
issues the raw concatenated statement
`CREATE DATABASE tenant_x; DROP DATABASE postgres` with no bound values,
and `build_tenant_db_url` embeds the raw id in the URL — no allow-list
check exists anywhere on the path. -/
theorem create_tenant_database_no_allowlist_counterexample :
    badId.toList.contains (Char.ofNat 59) = true ∧
    (create_tenant_database mA envEmpty badId).result = .ok () ∧
    PEvent.execCreate "CREATE DATABASE tenant_x; DROP DATABASE postgres"
        ∈ (create_tenant_database mA envEmpty badId).trace ∧
    (createDatabaseStmt badId).values = [] ∧
    build_tenant_db_url cfgA badId
        = "postgresql://u:p@h:5432/tenant_x; DROP DATABASE postgres" := by
  decide

/-- Claim C6, amended: the lookup statement of `validate_tenant` binds the
tenant id positionally into constant SQL text, but `create_tenant_database`
accepts every tenant id unchecked and interpolates it verbatim into the
`CREATE DATABASE` DDL (no bound values), as `build_tenant_db_url` does into
the connection URL; no allow-list validation is performed. -/
theorem sql_binding_and_raw_ddl (m : TenantConnectionManager) (env : Env)
    (tenant_id other_id : String)
    (hadmin : env.adminConnectOk = true)
    (hcreate : env.createDb ("CREATE DATABASE tenant_" ++ tenant_id) = .ok ())
    (hmig : env.migrateOk (build_tenant_db_url m.config tenant_id) = true) :
    (validateTenantStmt tenant_id).sql = (validateTenantStmt other_id).sql ∧
    (validateTenantStmt tenant_id).values = [tenant_id] ∧
    (create_tenant_database m env tenant_id).result = .ok () ∧
    PEvent.execCreate ("CREATE DATABASE tenant_" ++ tenant_id)
        ∈ (create_tenant_database m env tenant_id).trace ∧
    (createDatabaseStmt tenant_id).values = [] := by
  refine ⟨rfl, rfl, ?_, ?_, rfl⟩ <;>
    simp [create_tenant_database, createDatabaseStmt, hadmin, hcreate, hmig]

/-- Claim C6 (amended), witness: concrete provisioning of `acme` issues the
raw DDL and succeeds. -/
theorem sql_binding_and_raw_ddl_witness :
    (validateTenantStmt "acme").sql = (validateTenantStmt "ghost").sql ∧
    (validateTenantStmt "acme").values = ["acme"] ∧
    (create_tenant_database mA envEmpty "acme").result = .ok () ∧
    PEvent.execCreate ("CREATE DATABASE tenant_" ++ "acme")
        ∈ (create_tenant_database mA envEmpty "acme").trace ∧
    (createDatabaseStmt "acme").values = [] :=
  sql_binding_and_raw_ddl mA envEmpty "acme" "ghost" (by decide) (by decide)
    (by decide)

/-- Claim C7, counterexample: when `CREATE DATABASE` fails because the store
already exists, `create_tenant_database` fails (the `?` propagates the
error) even though the schema-application step would succeed
(`migrateOk` is identically true), and the migration step is never run —
retry after a partial failure does not complete provisioning. -/
theorem create_tenant_database_already_exists_counterexample :
    (create_tenant_database mA envExists "newco").result
        = .error (.storeCreateFailed .alreadyExists) ∧
    (create_tenant_database mA envExists "newco").result ≠ .ok () ∧
    ((create_tenant_database mA envExists "newco").trace.all
      fun ev => ! ev.isMigrateStep) = true := by
  decide

/-- Claim C7, amended: any failure of the store-creation statement —
"already exists" included — aborts `create_tenant_database` with that error,
and the schema-application (migration) step is not attempted. -/
theorem create_tenant_database_create_error_aborts (m : TenantConnectionManager)
    (env : Env) (tenant_id : String) (e : CreateDbError)
    (hadmin : env.adminConnectOk = true)
    (hcreate : env.createDb ("CREATE DATABASE tenant_" ++ tenant_id) = .error e) :
    (create_tenant_database m env tenant_id).result = .error (.storeCreateFailed e) ∧
    ((create_tenant_database m env tenant_id).trace.all
      fun ev => ! ev.isMigrateStep) = true := by
  simp [create_tenant_database, createDatabaseStmt, hadmin, hcreate,
    PEvent.isMigrateStep]

/-- Claim C7 (amended), witness: the already-exists failure aborts the
concrete call before migrations. -/
theorem create_tenant_database_create_error_aborts_witness :
    (create_tenant_database mA envExists "newco").result
        = .error (.storeCreateFailed .alreadyExists) ∧
    ((create_tenant_database mA envExists "newco").trace.all
      fun ev => ! ev.isMigrateStep) = true :=
  create_tenant_database_create_error_aborts mA envExists "newco"
    .alreadyExists (by decide) (by decide)

/-- Claim C8: for every valid input and a fixed secret, verifying a token
produced by `create_jwt_token` returns the same subject, tenant and
permissions claims with `iat = now` and `exp = now + ttl`; and at any
instant past `iat + ttl`, verification returns the expired error instead. -/
theorem jwt_issue_verify_roundtrip (user_id tenant_id : String)
    (permissions : List String) (secret : String) (ttl now later : Nat)
    (httl : 0 < ttl) (hlater : now + ttl < later) :
    validate_jwt_token (create_jwt_token user_id tenant_id permissions secret ttl now)
        secret now
      = .ok { sub := user_id, tenant_id := tenant_id, exp := now + ttl
              iat := now, permissions := permissions } ∧
    validate_jwt_token (create_jwt_token user_id tenant_id permissions secret ttl now)
        secret later
      = .error .expired := by
  constructor
  · simp only [validate_jwt_token, create_jwt_token, beq_self_eq_true, if_true]
    rw [if_pos (by omega)]
  · simp only [validate_jwt_token, create_jwt_token, beq_self_eq_true, if_true]
    rw [if_neg (by omega)]

/-- Claim C8, witness: concrete issue/verify round trip and expiry. -/
theorem jwt_issue_verify_roundtrip_witness :
    validate_jwt_token (create_jwt_token "u1" "t1" ["users:read"] "s" 60 0) "s" 0
      = .ok { sub := "u1", tenant_id := "t1", exp := 60, iat := 0
              permissions := ["users:read"] } ∧
    validate_jwt_token (create_jwt_token "u1" "t1" ["users:read"] "s" 60 0) "s" 61
      = .error .expired :=
  jwt_issue_verify_roundtrip "u1" "t1" ["users:read"] "s" 60 0 61
    (by decide) (by decide)

/-- Claim C10: every token issued by a successful
`MasterService::authenticate_user` is signed with the hard-coded literal
secret `your-secret-key` and carries the fixed TTL `exp = iat + 3600`
(the function never reads `AppState.jwt_secret`); consequently such a token
passes `auth_middleware` only when the configured `jwt_secret` equals
`your-secret-key`. -/
theorem authenticate_user_hardcoded_secret (menv : MasterEnv)
    (login_data : LoginRequest) (tenant_id : String) (now : Nat)
    (resp : LoginResponse)
    (hok : authenticate_user menv login_data tenant_id now = .ok (some resp)) :
    resp.token.sig = "your-secret-key" ∧
    resp.token.claims.exp = resp.token.claims.iat + 3600 ∧
    (∀ (state : AppState) (env : Env) (t : Nat) (request : Request) (a : AuthOk),
      request.bearer = some resp.token →
      auth_middleware state env t request = .ok a →
      state.jwt_secret = "your-secret-key") := by
  have hsig : resp.token.sig = "your-secret-key" ∧
      resp.token.claims.exp = resp.token.claims.iat + 3600 := by
    unfold authenticate_user at hok
    split at hok
    · split at hok
      · simp at hok
      · split at hok
        · simp only [Except.ok.injEq, Option.some.injEq] at hok
          subst hok
          simp [create_jwt_token]
        · simp at hok
    · simp at hok
  refine ⟨hsig.1, hsig.2, ?_⟩
  intro state env t request a hb hmw
  cases hv : validate_jwt_token resp.token state.jwt_secret t with
  | error e => simp [auth_middleware, hb, hv] at hmw
  | ok c =>
    unfold validate_jwt_token at hv
    by_cases hs : (resp.token.sig == state.jwt_secret) = true
    · have heq : resp.token.sig = state.jwt_secret := by simpa using hs
      rw [← heq]
      exact hsig.1
    · rw [if_neg hs] at hv
      simp at hv

/-- Claim C10, witness: the concrete successful login issues a token signed
with `your-secret-key` and TTL 3600. -/
theorem authenticate_user_hardcoded_secret_witness :
    authenticate_user menvA loginA "t1" 0 = .ok (some respA) ∧
    (respA.token.sig = "your-secret-key" ∧
     respA.token.claims.exp = respA.token.claims.iat + 3600 ∧
     (∀ (state : AppState) (env : Env) (t : Nat) (request : Request) (a : AuthOk),
        request.bearer = some respA.token →
        auth_middleware state env t request = .ok a →
        state.jwt_secret = "your-secret-key")) :=
  ⟨by decide, authenticate_user_hardcoded_secret menvA loginA "t1" 0 respA (by decide)⟩

end MultiTenant
